import Mathlib

/-!
# Verification of the payment-intent / order-materialization pipeline

Shallow embedding of the payment router (`routes/payments.js`, both the
legacy revision and the current PhonePe revision), the order service
(`services/orderService.js`) and the static coupon table
(`utils/couponRules.js`) of the roots-and-richness backend.

Modelling conventions:
* JS numbers holding money are modelled as `ℚ`; minor units (paise) and
  stock counters as `Int`; `Date.now()` timestamps and calendar dates as
  `Int` (any order-preserving encoding of instants).
* `Number(x.toFixed(2))` is modelled by `round2`, `Math.round` by `jsRound`,
  `Math.floor` by `Int.floor`, JS string-falsy defaulting `a || b` by `jsOr`.
* Fallible handlers return sum types; non-authoritative debug fields
  (`gatewayResponse`, `paidAt`, attempt records) are not modelled.
-/

namespace RnR

/-- Model of JS `Math.round(q)`: floor of `q + 1/2` (exact for the
nonnegative amounts the code handles). -/
def jsRound (q : ℚ) : Int := ⌊q + 1/2⌋

/-- Model of JS `Number(q.toFixed(2))`: round to two decimal places. -/
def round2 (q : ℚ) : ℚ := (jsRound (q * 100) : ℚ) / 100

/-- JS `a || b` on strings: `b` exactly when `a` is the empty string. -/
def jsOr (a b : String) : String := if a = "" then b else a

/-- JS `s.toUpperCase()`, modelled on the underlying character list
(uppercasing character by character). -/
def upper (s : String) : List Char := s.data.map Char.toUpper

/-- JS `s.trim()`: strip leading and trailing whitespace, modelled on the
underlying character list. -/
def jsTrim (s : String) : String :=
  ⟨((s.data.dropWhile Char.isWhitespace).reverse.dropWhile Char.isWhitespace).reverse⟩

/-- A product variant (source: entries of `product.variants`). The source
matches a requested selector against both `v.size` and `v._id`; both are
collapsed into the single selector `key`. `stock` is `Option` because the
source reads `variant.stock ?? stockAvailable`. -/
structure PVariant where
  key : String
  price : ℚ
  stock : Option Int
deriving Repr, DecidableEq

/-- A catalog product (source: the `Product` model fields read by
`computeTotalsFromDb`). -/
structure Product where
  price : ℚ
  stock : Int
  variants : List PVariant
deriving Repr, DecidableEq

/-- The product collection, keyed by product id. -/
abbrev Catalog := Nat → Option Product

/-- One line of a checkout request (source: elements of `orderItems`;
the alternate id spellings `productId || _id || id || product` are collapsed
into the single optional `productId`). -/
structure OrderItem where
  productId : Option Nat
  quantity : Int
  variant : Option String
deriving Repr, DecidableEq

inductive TotalsError
  | productNotFound
  | variantNotFound
  | insufficientStock
deriving Repr, DecidableEq

/-- Variant resolution inside `computeTotalsFromDb`: with no selector the
product's base price/stock are used; otherwise the selector must match a
variant (`throw` on miss), whose price is used and whose stock defaults to
the product stock when absent. -/
def resolveLine (p : Product) (variant : Option String) : Except TotalsError (ℚ × Int) :=
  match variant with
  | none => .ok (p.price, p.stock)
  | some sel =>
    match p.variants.find? (fun v => v.key == sel) with
    | none => .error .variantNotFound
    | some v => .ok (v.price, v.stock.getD p.stock)

/-- The subtotal loop of `computeTotalsFromDb`: resolve each line, check
stock, and accumulate `Number((unitPrice * quantity).toFixed(2))`. -/
def computeSubtotal (catalog : Catalog) : List OrderItem → Except TotalsError ℚ
  | [] => .ok 0
  | item :: rest =>
    match item.productId.bind catalog with
    | none => .error .productNotFound
    | some p =>
      match resolveLine p item.variant with
      | .error e => .error e
      | .ok (unitPrice, stockAvailable) =>
        if stockAvailable < item.quantity then .error .insufficientStock
        else
          match computeSubtotal catalog rest with
          | .error e => .error e
          | .ok s => .ok (round2 (unitPrice * (item.quantity : ℚ)) + s)

/-- Shipping policy of `computeTotalsFromDb`:
`subtotal > 499 ? 0 : 99` (identical in both revisions of the router). -/
def shippingFeeOf (subtotal : ℚ) : ℚ := if subtotal > 499 then 0 else 99

/-- The record returned by `computeTotalsFromDb`. -/
structure DbTotals where
  subtotal : ℚ
  shippingFee : ℚ
  tax : ℚ
  total : ℚ
  totalPaise : Int
deriving Repr, DecidableEq

/-- Assembles the totals record from a subtotal, exactly as the tail of
`computeTotalsFromDb` does. -/
def mkDbTotals (subtotal : ℚ) : DbTotals :=
  let shippingFee := shippingFeeOf subtotal
  let tax : ℚ := 0
  let total := round2 (subtotal + shippingFee + tax)
  { subtotal := subtotal, shippingFee := shippingFee, tax := tax,
    total := total, totalPaise := jsRound (total * 100) }

/-- Embedding of `computeTotalsFromDb(orderItems)`. -/
def computeTotalsFromDb (catalog : Catalog) (items : List OrderItem) :
    Except TotalsError DbTotals :=
  (computeSubtotal catalog items).map mkDbTotals

inductive CouponType | flat | percent
deriving Repr, DecidableEq

/-- One entry of the static `COUPON_RULES` table. `expiryDate` is the
chronological encoding of the rule's expiry instant. -/
structure CouponRule where
  code : String
  ctype : CouponType
  value : ℚ
  minOrderValue : ℚ
  expiryDate : Int
  isActive : Bool
deriving Repr, DecidableEq

/-- The static rule table of `utils/couponRules.js` (dates encoded as
yyyymmdd integers, preserving chronological order). -/
def COUPON_RULES : List CouponRule :=
  [ { code := "FLAT100", ctype := .flat, value := 100, minOrderValue := 499,
      expiryDate := 20250930, isActive := true },
    { code := "FIRST5", ctype := .percent, value := 5, minOrderValue := 299,
      expiryDate := 20251218, isActive := true },
    { code := "FREESHIP", ctype := .flat, value := 75, minOrderValue := 699,
      expiryDate := 20250515, isActive := true } ]

/-- Embedding of
`COUPON_RULES.find(c => c.code.toUpperCase() === code.toUpperCase())`. -/
def couponLookup (rules : List CouponRule) (code : String) : Option CouponRule :=
  rules.find? (fun c => upper c.code == upper code)

/-- The discount formula per coupon type: `Math.floor(subtotal*value/100)`
for percent rules, the flat value otherwise. -/
def rawDiscount (c : CouponRule) (subtotal : ℚ) : ℚ :=
  match c.ctype with
  | .percent => (⌊subtotal * c.value / 100⌋ : ℚ)
  | .flat => c.value

/-- The guarded discount of the coupon block: `0` unless the rule is
active, not expired (`new Date(expiryDate) >= new Date()`) and the subtotal
meets the rule minimum. -/
def gatedDiscount (c : CouponRule) (subtotal : ℚ) (now : Int) : ℚ :=
  if c.isActive then
    if now ≤ c.expiryDate ∧ c.minOrderValue ≤ subtotal then rawDiscount c subtotal
    else 0
  else 0

/-- The whole coupon-application step of the handlers: optional code,
case-insensitive lookup, guarded formula, and the final clamp
`discountAmount = Math.min(discountAmount, subtotal)` (applied whether or
not a coupon matched). -/
def couponDiscount (rules : List CouponRule) (code : Option String)
    (subtotal : ℚ) (now : Int) : ℚ :=
  let raw :=
    match code with
    | none => 0
    | some cd =>
      match couponLookup rules cd with
      | some c => gatedDiscount c subtotal now
      | none => 0
  min raw subtotal

/-- PaymentIntent statuses written by the router (the source writes
`pending`, `initiated`, `paid`, `failed`; `expired` appears in the spec's
vocabulary and is included for completeness — no code path writes it). -/
inductive IStatus | pending | initiated | paid | failed | expired
deriving Repr, DecidableEq

/-- Gateway-reported states, after the router's `.toUpperCase()`
normalization: the named vocabulary entries plus `unknown` for anything
else. -/
inductive GwState
  | completed | success | failedTx | expiredTx | cancelled | pendingTx | unknown
deriving Repr, DecidableEq

/-- Status write of the PhonePe `webhookHandler`: `COMPLETED` sets `paid`;
otherwise `intent.status = state === 'FAILED' || state === 'EXPIRED' ?
'failed' : intent.status || 'pending'`. -/
def webhookStatusStep (gw : GwState) (st : IStatus) : IStatus :=
  match gw with
  | .completed => .paid
  | .failedTx => .failed
  | .expiredTx => .failed
  | _ => st

/-- Status write of the `/phonepe/check-status` handler: `COMPLETED` or
`SUCCESS` sets `paid`; `FAILED`, `EXPIRED`, `CANCELLED` set `failed`; any
other state answers `PENDING` without a status write. -/
def checkStatusStatusStep (gw : GwState) (st : IStatus) : IStatus :=
  match gw with
  | .completed => .paid
  | .success => .paid
  | .failedTx => .failed
  | .expiredTx => .failed
  | .cancelled => .failed
  | _ => st

/-- Status write of the legacy `/phonepe/callback` handler: it re-queries
the gateway; on an unsuccessful status response nothing is written, on
`COMPLETED` the intent becomes `paid`, on every other state `failed`. -/
def callbackStatusStep (gwOk : Bool) (gw : GwState) (st : IStatus) : IStatus :=
  if gwOk then (if gw = .completed then .paid else .failed) else st

/-- One delivery on one of the three confirmation channels, carrying the
gateway-reported state (and, for the callback, whether the gateway status
re-query succeeded). -/
inductive ChannelOp
  | webhook (gw : GwState)
  | checkStatus (gw : GwState)
  | callback (gwOk : Bool) (gw : GwState)
deriving Repr, DecidableEq

def channelStatusStep (op : ChannelOp) (st : IStatus) : IStatus :=
  match op with
  | .webhook gw => webhookStatusStep gw st
  | .checkStatus gw => checkStatusStatusStep gw st
  | .callback gwOk gw => callbackStatusStep gwOk gw st

/-- Run a sequence of confirmation-channel deliveries against an intent's
status. -/
def runChannelOps (ops : List ChannelOp) (st : IStatus) : IStatus :=
  ops.foldl (fun s op => channelStatusStep op s) st

/-- The fields of an Order document that the idempotency lookups read.
The webhook and callback construct orders with `orderId := merchantOrderId`
and no `merchantOrderId` field; `createOrderFromIntent` constructs orders
with a fresh `PHNPE_…` public `orderId` and `merchantOrderId` set. -/
structure OrderRec where
  orderId : String
  merchantOrderId : Option String
  intentId : String
deriving Repr, DecidableEq

/-- The mutable state touched by the confirmation channels, for one
PaymentIntent buying `qty` units of a single product variant (the variant
addressed by the order item's `variantId`). `variantStock` is that
variant's stock counter. -/
structure SysState where
  status : IStatus
  stockAdjusted : Bool
  orders : List OrderRec
  variantStock : Int
deriving Repr, DecidableEq

/-- The `COMPLETED` branch of `webhookHandler` (payload state `COMPLETED`
for merchant order id `mo` of intent `pi`): mark paid, then create an Order
only if no order with `orderId = mo` exists, and in that case decrement
the variant stock clamped at zero (`Math.max(0, stock - qty)`); the
webhook's variant branch does not touch `stockAdjusted`. -/
def webhookCompleted (pi mo : String) (qty : Int) (s : SysState) : SysState :=
  let s := { s with status := IStatus.paid }
  if s.orders.any (fun o => o.orderId == mo) then s
  else
    { s with
      orders := s.orders ++ [{ orderId := mo, merchantOrderId := none, intentId := pi }],
      variantStock := max 0 (s.variantStock - qty) }

/-- Legacy `/phonepe/callback`, gateway re-query succeeded with state
`COMPLETED`: mark paid, create an Order only if no order with
`orderId = mo` exists, and in that case decrement the variant stock
without clamping (`variant.stock -= item.quantity`). -/
def callbackCompleted (pi mo : String) (qty : Int) (s : SysState) : SysState :=
  let s := { s with status := IStatus.paid }
  if s.orders.any (fun o => o.orderId == mo) then s
  else
    { s with
      orders := s.orders ++ [{ orderId := mo, merchantOrderId := none, intentId := pi }],
      variantStock := s.variantStock - qty }

/-- The `/phonepe/check-status` handler, gateway state `COMPLETED`: fast-path return
when the intent is already paid and a matching order exists; otherwise
mark paid and call `createOrderFromIntent`, which reuses an existing order
matched by `merchantOrderId` or `intentId` or inserts a fresh
`PHNPE_…`-id order (`freshOid`), decrementing the variant stock by a
bulk `$inc` (no clamp) guarded by `intent.stockAdjusted`; afterwards the
route itself sets `stockAdjusted := true`. -/
def checkStatusCompleted (pi mo freshOid : String) (qty : Int) (s : SysState) : SysState :=
  if s.status = IStatus.paid
      ∧ s.orders.any (fun o => o.orderId == mo || o.merchantOrderId == some mo) then s
  else
    let s : SysState := { s with status := IStatus.paid }
    let shouldAdjust : Bool := ! s.stockAdjusted
    if s.orders.any (fun o => o.merchantOrderId == some mo || o.intentId == pi) then
      let s : SysState :=
        if shouldAdjust then
          { s with variantStock := s.variantStock - qty, stockAdjusted := true }
        else s
      { s with stockAdjusted := true }
    else
      let s : SysState :=
        { s with orders :=
            s.orders ++ [{ orderId := freshOid, merchantOrderId := some mo, intentId := pi }] }
      let s : SysState :=
        if shouldAdjust then
          { s with variantStock := s.variantStock - qty, stockAdjusted := true }
        else s
      { s with stockAdjusted := true }

/-- Parsed webhook payload fields the handler reads
(`data.merchantOrderId || data.orderId` and `data.state`). -/
structure WebhookPayload where
  merchantOrderId : Option String
  state : GwState
deriving Repr, DecidableEq

/-- An inbound webhook request: whether the raw body is empty, the
(trimmed) `Authorization` header (`""` when absent), and the body's parse
result (`none` for invalid JSON). -/
structure WebhookReq where
  bodyEmpty : Bool
  authHeader : String
  payload : Option WebhookPayload
deriving Repr, DecidableEq

/-- The header value PhonePe is expected to send:
`SHA256(sha256hex(user:pass))`, for an abstract hex digest `hash`. -/
def expectedWebhookHeader (hash : String → String) (user pass : String) : String :=
  "SHA256(" ++ hash (user ++ ":" ++ pass) ++ ")"

/-- The full `webhookHandler` for the intent `pi`/`mo`: empty body → 400;
missing or mismatched `Authorization` header → 401 with no state access;
unparsable body → 400; missing merchantOrderId → 400; unknown
merchantOrderId → 200 without mutation; otherwise the status/order/stock
transition keyed on the payload state. Returns the HTTP status and the
post state. -/
def webhookHandler (hash : String → String) (user pass : String) (pi mo : String)
    (qty : Int) (req : WebhookReq) (s : SysState) : Nat × SysState :=
  if req.bodyEmpty then (400, s)
  else if req.authHeader = "" ∨ req.authHeader ≠ expectedWebhookHeader hash user pass then
    (401, s)
  else
    match req.payload with
    | none => (400, s)
    | some p =>
      match p.merchantOrderId with
      | none => (400, s)
      | some m =>
        if m ≠ mo then (200, s)
        else
          match p.state with
          | .completed => (200, webhookCompleted pi mo qty s)
          | .failedTx => (200, { s with status := IStatus.failed })
          | .expiredTx => (200, { s with status := IStatus.failed })
          | _ => (200, s)

/-- The monetary snapshot persisted on an intent (`intent.totals`). -/
structure Totals where
  subtotal : ℚ
  shippingFee : ℚ
  tax : ℚ
  discountAmount : ℚ
  total : ℚ
  totalPaise : Int
deriving Repr, DecidableEq

/-- The PaymentIntent fields read and written by the handlers under
verification. -/
structure IntentRec where
  intentId : String
  merchantOrderId : Option String
  orderItems : List OrderItem
  totals : Option Totals
  status : IStatus
  couponCode : Option String
deriving Repr, DecidableEq

/-- The merchant order id minted by the current `/phonepe/create-order`:
`` `mo_${intent.intentId}_${Date.now()}` ``. -/
def mkMerchantOrderId (intentId : String) (now : Int) : String :=
  "mo_" ++ intentId ++ "_" ++ toString now

inductive P13CreateOut
  | computeError (e : TotalsError)
  | sent (merchantOrderId : String) (amountPaise : Int)
deriving Repr, DecidableEq

/-- The current (PhonePe-revision) `/phonepe/create-order` handler, success
path of the gateway call, for a located intent: reuse `intent.totals` when
present (no recomputation), otherwise recompute totals from the catalog
and apply the coupon (`frontendCouponCode || intent.couponCode`), then
mint and persist a fresh `merchantOrderId`, send the minor-unit amount to
the gateway and set the status to `initiated`. `nowDate` is the clock used
for coupon expiry, `now` the `Date.now()` used to mint the id. -/
def createOrderP13 (rules : List CouponRule) (catalog : Catalog) (nowDate now : Int)
    (frontendCoupon : Option String) (intent : IntentRec) : P13CreateOut × IntentRec :=
  match intent.totals with
  | some t =>
    let mo := mkMerchantOrderId intent.intentId now
    (.sent mo t.totalPaise,
     { intent with merchantOrderId := some mo, status := IStatus.initiated })
  | none =>
    match computeTotalsFromDb catalog intent.orderItems with
    | .error e => (.computeError e, intent)
    | .ok db =>
      let couponToApply := frontendCoupon.orElse (fun _ => intent.couponCode)
      let discountAmount := couponDiscount rules couponToApply db.subtotal nowDate
      let finalTotal := round2 (db.subtotal + db.shippingFee - discountAmount)
      let totalPaise := jsRound (finalTotal * 100)
      let t : Totals :=
        { subtotal := db.subtotal, shippingFee := db.shippingFee, tax := db.tax,
          discountAmount := discountAmount, total := finalTotal, totalPaise := totalPaise }
      let mo := mkMerchantOrderId intent.intentId now
      (.sent mo totalPaise,
       { intent with totals := some t, merchantOrderId := some mo,
                     status := IStatus.initiated })

inductive LegacyCreateOut
  | notPending
  | computeError (e : TotalsError)
  | noTotals
  | amountMismatch
  | sent (amountPaise : Int) (gwOk : Bool)
deriving Repr, DecidableEq

/-- The legacy-revision `/phonepe/create-order` handler for a located
intent: requires status `pending`, recomputes totals from the catalog,
compares `computed.totalPaise` with `intent.totals.totalPaise` (marking
the intent `failed` with an amount-mismatch error on drift), then sends
the recomputed minor-unit amount; the status becomes `initiated` exactly
when the gateway acknowledges (`gwOk`), else `failed`. Accessing
`intent.totals.totalPaise` on an intent without totals throws
(`noTotals`). -/
def createOrderLegacy (catalog : Catalog) (gwOk : Bool) (intent : IntentRec) :
    LegacyCreateOut × IntentRec :=
  if intent.status ≠ IStatus.pending then (.notPending, intent)
  else
    match computeTotalsFromDb catalog intent.orderItems with
    | .error e => (.computeError e, intent)
    | .ok db =>
      match intent.totals with
      | none => (.noTotals, intent)
      | some t0 =>
        if db.totalPaise ≠ t0.totalPaise then
          (.amountMismatch, { intent with status := IStatus.failed })
        else
          (.sent db.totalPaise gwOk,
           { intent with status := if gwOk then IStatus.initiated else IStatus.failed })

/-- The merchantOrderId resolution step of `/phonepe/check-status` when the
intent was located by `intentId`: reuse `intent.merchantOrderId` when set,
otherwise back-fill a freshly minted id onto the intent. -/
def checkStatusResolveMo (intent : IntentRec) (fresh : String) : String × IntentRec :=
  match intent.merchantOrderId with
  | some m => (m, intent)
  | none => (fresh, { intent with merchantOrderId := some fresh })

/-- The customer-contact fields the initiate-intent handler reads
(absent JS fields are modelled as `""`). -/
structure ContactIn where
  firstName : String
  lastName : String
  fullName : String
  email : String
  phone : String
  mobileNumber : String
  address : String
  city : String
  stateName : String
  pincode : String
  postalCode : String
  country : String
deriving Repr, DecidableEq

/-- The explicit `shippingAddress` fields of the request body. -/
structure ShipIn where
  fullName : String
  email : String
  phone : String
  address : String
  addressLine1 : String
  addressLine2 : String
  city : String
  stateName : String
  postalCode : String
  postal : String
  country : String
deriving Repr, DecidableEq

/-- The canonical merged shipping address built by
`/phonepe/initiate-intent` (`finalShippingAddress`): explicit shipping
fields first, then customer-contact fallbacks, each `.trim()`-med. -/
structure ShipOut where
  fullName : String
  email : String
  phone : String
  address : String
  addressLine2 : String
  city : String
  stateName : String
  postalCode : String
  country : String
deriving Repr, DecidableEq

def finalShippingAddress (ship : ShipIn) (c : ContactIn) : ShipOut :=
  { fullName := jsTrim (jsOr ship.fullName
      (jsOr c.fullName (c.firstName ++ " " ++ c.lastName)))
    email := jsTrim (jsOr ship.email c.email)
    phone := jsTrim (jsOr ship.phone (jsOr c.phone c.mobileNumber))
    address := jsTrim (jsOr ship.address (jsOr ship.addressLine1 c.address))
    addressLine2 := jsTrim ship.addressLine2
    city := jsTrim (jsOr ship.city c.city)
    stateName := jsTrim (jsOr ship.stateName c.stateName)
    postalCode := jsTrim (jsOr ship.postalCode
      (jsOr ship.postal (jsOr c.pincode c.postalCode)))
    country := jsTrim (jsOr ship.country (jsOr c.country "India")) }

/-- The five required shipping fields, in the order the handler lists
them. -/
def requiredShippingFields (a : ShipOut) : List (String × String) :=
  [("address", a.address), ("city", a.city), ("state", a.stateName),
   ("postalCode", a.postalCode), ("phone", a.phone)]

/-- Embedding of
`required.filter(f => !final[f] || final[f].trim().length === 0)`:
the names of the required fields that are empty (or whitespace). -/
def missingShippingFields (a : ShipOut) : List String :=
  ((requiredShippingFields a).filter
    (fun p => p.2 == "" || jsTrim p.2 == "")).map Prod.fst

/-- Embedding of `validateOrderItemsShape`: non-empty list, each item with a resolvable
product id and a quantity ≥ 1 (JS `!item.quantity || item.quantity < 1`,
with falsy `0` subsumed by `< 1`); returns the first error message, or
`none` when the shape is valid. -/
def validateOrderItemsShape (items : List OrderItem) : Option String :=
  if items.isEmpty then some "orderItems must be a non-empty array"
  else
    items.findSome? (fun it =>
      if it.productId.isNone then some "Each order item must include productId"
      else if it.quantity < 1 then
        some "Each order item must include a valid quantity (>=1)"
      else none)

/-- The request body of `/phonepe/initiate-intent`. -/
structure InitiateReq where
  orderItems : List OrderItem
  customerInfo : ContactIn
  shippingAddress : ShipIn
  couponCode : Option String
deriving Repr, DecidableEq

inductive InitiateOut
  | badItems (msg : String)
  | badCustomer
  | missingShipping (missing : List String)
  | computeError (e : TotalsError)
  | invalidAmount
  | created (intent : IntentRec)
deriving Repr, DecidableEq

/-- The `/phonepe/initiate-intent` handler (current revision): item-shape
validation, minimal customer check (`email`, `firstName`), shipping-address
merge and completeness gate (before any totals computation), then totals,
coupon, the positive-amount check, and finally the persisted pending
intent (`freshId` is the generated `pi_…` id, `nowDate` the clock). An
intent record is produced only in the `created` outcome. -/
def initiateIntent (rules : List CouponRule) (catalog : Catalog) (nowDate : Int)
    (freshId : String) (req : InitiateReq) : InitiateOut :=
  match validateOrderItemsShape req.orderItems with
  | some msg => .badItems msg
  | none =>
    if req.customerInfo.email = "" ∨ req.customerInfo.firstName = "" then .badCustomer
    else
      let addr := finalShippingAddress req.shippingAddress req.customerInfo
      let missing := missingShippingFields addr
      if missing ≠ [] then .missingShipping missing
      else
        match computeTotalsFromDb catalog req.orderItems with
        | .error e => .computeError e
        | .ok db =>
          let discountAmount := couponDiscount rules req.couponCode db.subtotal nowDate
          let finalTotal := round2 (db.subtotal + db.shippingFee - discountAmount)
          let totalPaise := jsRound (finalTotal * 100)
          if totalPaise ≤ 0 then .invalidAmount
          else .created
            { intentId := freshId, merchantOrderId := none,
              orderItems := req.orderItems,
              totals := some
                { subtotal := db.subtotal, shippingFee := db.shippingFee, tax := db.tax,
                  discountAmount := discountAmount, total := finalTotal,
                  totalPaise := totalPaise },
              status := IStatus.pending, couponCode := req.couponCode }

/-! ## Concrete fixtures used by witnesses and counterexamples -/

/-- A one-product catalog: product 1 priced 100 with stock 10. -/
def cat100 : Catalog :=
  fun n => if n = 1 then some { price := 100, stock := 10, variants := [] } else none

/-- The same catalog after an admin price change to 150 (catalog drift). -/
def cat150 : Catalog :=
  fun n => if n = 1 then some { price := 150, stock := 10, variants := [] } else none

/-- A catalog whose single product costs exactly the shipping threshold. -/
def cat499 : Catalog :=
  fun n => if n = 1 then some { price := 499, stock := 10, variants := [] } else none

/-- One unit of product 1, no variant selector. -/
def item1 : OrderItem := { productId := some 1, quantity := 1, variant := none }

/-- The intent totals stored for one unit at price 100 (99 shipping,
total 199, 19900 paise). -/
def totals100 : Totals :=
  { subtotal := 100, shippingFee := 99, tax := 0, discountAmount := 0, total := 199,
    totalPaise := 19900 }

/-- The totals `computeTotalsFromDb` produces over `cat100`. -/
def db100 : DbTotals :=
  { subtotal := 100, shippingFee := 99, tax := 0, total := 199, totalPaise := 19900 }

/-- The totals `computeTotalsFromDb` produces over the drifted `cat150`. -/
def db150 : DbTotals :=
  { subtotal := 150, shippingFee := 99, tax := 0, total := 249, totalPaise := 24900 }

/-- The totals `computeTotalsFromDb` produces over `cat499`. -/
def db499 : DbTotals :=
  { subtotal := 499, shippingFee := 99, tax := 0, total := 598, totalPaise := 59800 }

/-- An intent created against `cat100`: stored totals 100 + 99 shipping =
199, i.e. 19900 paise. -/
def intent100 : IntentRec :=
  { intentId := "pi3", merchantOrderId := none, orderItems := [item1],
    totals := some totals100, status := IStatus.pending, couponCode := none }

/-- An intent that has already been assigned a merchant order id. -/
def intentWithMo : IntentRec := { intent100 with merchantOrderId := some "mo_pi3_1" }

/-- The record `intent100` becomes after a create-order call at time 7. -/
def intent100After7 : IntentRec :=
  { intent100 with merchantOrderId := some "mo_pi3_7", status := IStatus.initiated }

/-- An initiated intent state holding 5 units of variant stock, before any
confirmation delivery. -/
def initiatedState : SysState :=
  { status := IStatus.initiated, stockAdjusted := false, orders := [], variantStock := 5 }

/-- A webhook request carrying a wrong signature header. -/
def badAuthReq : WebhookReq := { bodyEmpty := false, authHeader := "bad", payload := none }

/-- A request with valid items and customer data whose merged shipping
address is missing only the city. -/
def c7Req : InitiateReq :=
  { orderItems := [item1],
    customerInfo :=
      { firstName := "Asha", lastName := "K", fullName := "", email := "a@example.com",
        phone := "9999999999", mobileNumber := "", address := "12 Lane", city := "",
        stateName := "TG", pincode := "500001", postalCode := "", country := "" },
    shippingAddress :=
      { fullName := "", email := "", phone := "", address := "", addressLine1 := "",
        addressLine2 := "", city := "", stateName := "", postalCode := "", postal := "",
        country := "" },
    couponCode := none }

/-- The FLAT100 rule of the table. -/
def flat100Rule : CouponRule :=
  { code := "FLAT100", ctype := .flat, value := 100, minOrderValue := 499,
    expiryDate := 20250930, isActive := true }

/-- An initiated intent state with a single unit of variant stock. -/
def lowStockState : SysState :=
  { status := IStatus.initiated, stockAdjusted := false, orders := [], variantStock := 1 }

/-- Evaluation of totals over `cat100`. -/
lemma computeTotals_cat100 : computeTotalsFromDb cat100 [item1] = .ok db100 := by
  norm_num [computeTotalsFromDb, computeSubtotal, resolveLine, mkDbTotals, shippingFeeOf,
    round2, jsRound, Except.map, cat100, item1, db100, Int.floor_eq_iff]

/-- Evaluation of totals over the drifted catalog `cat150`. -/
lemma computeTotals_cat150 : computeTotalsFromDb cat150 [item1] = .ok db150 := by
  norm_num [computeTotalsFromDb, computeSubtotal, resolveLine, mkDbTotals, shippingFeeOf,
    round2, jsRound, Except.map, cat150, item1, db150, Int.floor_eq_iff]

/-- Evaluation of totals over `cat499`: the subtotal sits exactly on the
shipping threshold and the flat fee is still charged. -/
lemma computeTotals_cat499 : computeTotalsFromDb cat499 [item1] = .ok db499 := by
  norm_num [computeTotalsFromDb, computeSubtotal, resolveLine, mkDbTotals, shippingFeeOf,
    round2, jsRound, Except.map, cat499, item1, db499, Int.floor_eq_iff]

/-! ## C1 — exactly one Order per intent across the confirmation channels -/

/--
C1 (code bug): the claim asks that N ≥ 1 paid-deliveries across webhook,
status poll and legacy callback produce exactly one Order and one stock
decrement. The code violates it: a check-status poll first materializes the
order through `createOrderFromIntent` under a fresh public `PHNPE_…`
`orderId` (keeping `mo` only in the `merchantOrderId` field), and a webhook
delivery arriving afterwards checks for an existing order with
`Order.findOne({ orderId: mo })` only — it misses the service-created
order, inserts a second Order and decrements the variant stock a second
time: starting from 5 units and quantity 2, the final state has two orders
and stock 1 instead of one order and stock 3.
-/
theorem C1_cross_channel_double_order :
    (webhookCompleted "pi1" "mo1" 2
        (checkStatusCompleted "pi1" "mo1" "PHNPE_A" 2 initiatedState)).orders.length = 2
    ∧ (webhookCompleted "pi1" "mo1" 2
        (checkStatusCompleted "pi1" "mo1" "PHNPE_A" 2 initiatedState)).variantStock = 1
    ∧ (webhookCompleted "pi1" "mo1" 2
        (checkStatusCompleted "pi1" "mo1" "PHNPE_A" 2 initiatedState)).status
        = IStatus.paid := by decide

/-! ## C2 — status monotonicity across the confirmation channels -/

/--
C2 counterexample: the claim forbids moving a `failed` intent to `paid`
and any status write after a terminal status. A single webhook delivery
reporting `COMPLETED` on a `failed` intent sets it to `paid` (the webhook
assigns `intent.status = "paid"` without inspecting the current status).
-/
theorem C2_counterexample :
    runChannelOps [ChannelOp.webhook GwState.completed] IStatus.failed = IStatus.paid
    ∧ IStatus.failed ≠ IStatus.paid := by decide

lemma channelStatusStep_paid_or_failed (op : ChannelOp) (st : IStatus)
    (h : st = IStatus.paid ∨ st = IStatus.failed) :
    channelStatusStep op st = IStatus.paid ∨ channelStatusStep op st = IStatus.failed := by
  cases op with
  | webhook gw =>
    rcases h with h | h <;> subst h <;> cases gw <;>
      simp [channelStatusStep, webhookStatusStep]
  | checkStatus gw =>
    rcases h with h | h <;> subst h <;> cases gw <;>
      simp [channelStatusStep, checkStatusStatusStep]
  | callback gwOk gw =>
    rcases h with h | h <;> subst h <;> cases gwOk <;> cases gw <;>
      simp [channelStatusStep, callbackStatusStep]

/--
C2 amended: within the three confirmation channels no sequence of
deliveries moves a `paid` intent back to `initiated` or `pending` — every
delivery leaves a paid intent `paid` or `failed`. (The rest of the original
claim is false: terminal statuses are not write-protected — a `COMPLETED`
delivery on a `failed` intent sets it to `paid` and a `FAILED` delivery on
a `paid` intent sets it to `failed`, per the counterexample.)
-/
theorem C2_amended_no_return_to_nonterminal (ops : List ChannelOp) :
    runChannelOps ops IStatus.paid = IStatus.paid
    ∨ runChannelOps ops IStatus.paid = IStatus.failed := by
  have key : ∀ (l : List ChannelOp) (st : IStatus),
      st = IStatus.paid ∨ st = IStatus.failed →
      runChannelOps l st = IStatus.paid ∨ runChannelOps l st = IStatus.failed := by
    intro l
    induction l with
    | nil => intro st h; simpa [runChannelOps] using h
    | cons op rest ih =>
      intro st h
      have hstep := channelStatusStep_paid_or_failed op st h
      simpa [runChannelOps] using ih (channelStatusStep op st) hstep
  exact key ops IStatus.paid (Or.inl rfl)

/-! ## C4 — stock clamping on the paid-transition decrement paths -/

/--
C4 counterexample: the claim states that every stock decrement on the
paid-transition paths clamps at zero. The legacy callback's decrement
(`variant.stock -= item.quantity`) does not: delivering a completed
callback for quantity 2 against a variant holding 1 unit leaves stock −1.
-/
theorem C4_counterexample :
    (callbackCompleted "pi1" "mo1" 2 lowStockState).variantStock = -1
    ∧ ¬ (0 : Int) ≤ (callbackCompleted "pi1" "mo1" 2 lowStockState).variantStock := by
  decide

/--
C4 amended: only the webhook handler's decrement clamps at zero
(`Math.max(0, stock - qty)`), so webhook materialization keeps a
nonnegative variant stock nonnegative; the legacy-callback and
order-service decrement paths subtract without clamping and can drive
stock negative (see the counterexample).
-/
theorem C4_amended_webhook_clamps (pi mo : String) (qty : Int) (s : SysState)
    (h : 0 ≤ s.variantStock) :
    0 ≤ (webhookCompleted pi mo qty s).variantStock := by
  by_cases hc : (s.orders.any fun o => o.orderId == mo) = true
  · simpa [webhookCompleted, hc] using h
  · simp [webhookCompleted, hc]

/-- Witness for the amended C4 at a concrete state. -/
theorem C4_amended_webhook_clamps_witness :
    (0 : Int) ≤ initiatedState.variantStock
    ∧ 0 ≤ (webhookCompleted "pi1" "mo1" 2 initiatedState).variantStock :=
  ⟨by decide, C4_amended_webhook_clamps "pi1" "mo1" 2 initiatedState (by decide)⟩

/-! ## C6 — webhook signature gate -/

/--
C6: a webhook request whose `Authorization` header is missing (empty after
the `|| ''` defaulting) or differs from
`SHA256(sha256hex(user:pass))` leaves the state untouched, and (whenever
the raw body is non-empty, the only case in which the signature gate is
reached) is answered 401. No intent, order or product field is written
before the check passes.
-/
theorem C6_unauthorized_no_mutation (hash : String → String) (user pass pi mo : String)
    (qty : Int) (req : WebhookReq) (s : SysState)
    (h : req.authHeader = "" ∨ req.authHeader ≠ expectedWebhookHeader hash user pass) :
    (webhookHandler hash user pass pi mo qty req s).2 = s
    ∧ (req.bodyEmpty = false → (webhookHandler hash user pass pi mo qty req s).1 = 401) := by
  by_cases hb : req.bodyEmpty = true
  · constructor
    · simp [webhookHandler, hb]
    · intro hb'; rw [hb'] at hb; exact absurd hb (by simp)
  · have hb' : req.bodyEmpty = false := by
      cases hfb : req.bodyEmpty
      · rfl
      · exact absurd hfb hb
    constructor
    · simp [webhookHandler, hb', h]
    · intro _; simp [webhookHandler, hb', h]

/-- Witness for C6 at a concrete request and state. -/
theorem C6_unauthorized_no_mutation_witness :
    ("bad" = "" ∨ "bad" ≠ expectedWebhookHeader (fun x => x) "user" "pass")
    ∧ ((webhookHandler (fun x => x) "user" "pass" "pi1" "mo1" 2 badAuthReq
          initiatedState).2 = initiatedState
      ∧ (badAuthReq.bodyEmpty = false →
          (webhookHandler (fun x => x) "user" "pass" "pi1" "mo1" 2 badAuthReq
            initiatedState).1 = 401)) :=
  ⟨Or.inr (by decide),
   C6_unauthorized_no_mutation (fun x => x) "user" "pass" "pi1" "mo1" 2 badAuthReq
     initiatedState (Or.inr (by decide))⟩

/-! ## C3 — amount integrity at gateway-order creation -/

/--
C3 counterexample: the claim states that the create-gateway-order
operation recomputes totals and fails with an amount mismatch (marking the
intent failed) when the recomputed minor-unit amount differs from the
stored one. In the current handler this is false: for `intent100` (stored
against price 100 → 19900 paise) after a catalog drift to price 150 (a
recomputation would give 24900 paise), the handler reuses the stored
totals, performs no comparison, reports success with the stored 19900
paise and sets the intent `initiated`, not `failed`.
-/
theorem C3_counterexample :
    (createOrderP13 COUPON_RULES cat150 20250101 1 none intent100).1
        = P13CreateOut.sent "mo_pi3_1" 19900
    ∧ (createOrderP13 COUPON_RULES cat150 20250101 1 none intent100).2.status
        = IStatus.initiated
    ∧ computeTotalsFromDb cat150 intent100.orderItems = .ok db150
    ∧ db150.totalPaise = 24900 ∧ (24900 : Int) ≠ 19900 := by
  refine ⟨by decide, by decide, ?_, by decide, by decide⟩
  have h := computeTotals_cat150
  simpa [intent100] using h

/--
C3 amended: only the legacy revision of the create-order handler
recomputes totals, compares the minor-unit amounts, and on drift fails
with an amount mismatch marking the intent failed (and on agreement sends
exactly the stored minor-unit amount); the current handler reuses the
intent's stored totals without recomputation and always sends the stored
minor-unit amount to the gateway.
-/
theorem C3_amended_amount_integrity :
    (∀ (catalog : Catalog) (gwOk : Bool) (intent : IntentRec) (t0 : Totals) (db : DbTotals),
        intent.status = IStatus.pending → intent.totals = some t0 →
        computeTotalsFromDb catalog intent.orderItems = .ok db →
        db.totalPaise ≠ t0.totalPaise →
        createOrderLegacy catalog gwOk intent
          = (.amountMismatch, { intent with status := IStatus.failed }))
    ∧ (∀ (catalog : Catalog) (gwOk : Bool) (intent : IntentRec) (t0 : Totals) (db : DbTotals),
        intent.status = IStatus.pending → intent.totals = some t0 →
        computeTotalsFromDb catalog intent.orderItems = .ok db →
        db.totalPaise = t0.totalPaise →
        (createOrderLegacy catalog gwOk intent).1 = .sent t0.totalPaise gwOk)
    ∧ (∀ (rules : List CouponRule) (catalog : Catalog) (nowDate now : Int)
        (fc : Option String) (intent : IntentRec) (t0 : Totals),
        intent.totals = some t0 →
        (createOrderP13 rules catalog nowDate now fc intent).1
          = .sent (mkMerchantOrderId intent.intentId now) t0.totalPaise) := by
  refine ⟨?_, ?_, ?_⟩
  · intro catalog gwOk intent t0 db hp ht hc hne
    simp [createOrderLegacy, hp, ht, hc, hne]
  · intro catalog gwOk intent t0 db hp ht hc heq
    simp [createOrderLegacy, hp, ht, hc, heq]
  · intro rules catalog nowDate now fc intent t0 ht
    simp [createOrderP13, ht]

/-- Witness for the amended C3: the mismatch path over the drifted
catalog, the agreement path over the original catalog, and the current
handler's reuse path. -/
theorem C3_amended_amount_integrity_witness :
    intent100.status = IStatus.pending
    ∧ intent100.totals = some totals100
    ∧ db150.totalPaise ≠ totals100.totalPaise
    ∧ createOrderLegacy cat150 true intent100
        = (.amountMismatch, { intent100 with status := IStatus.failed })
    ∧ (createOrderLegacy cat100 true intent100).1 = .sent totals100.totalPaise true
    ∧ (createOrderP13 COUPON_RULES cat100 20250101 7 none intent100).1
        = .sent "mo_pi3_7" 19900 := by
  refine ⟨by decide, by decide, by decide, ?_, ?_, ?_⟩
  · exact C3_amended_amount_integrity.1 cat150 true intent100 totals100 db150 (by decide)
      rfl (by simpa [intent100] using computeTotals_cat150) (by decide)
  · exact C3_amended_amount_integrity.2.1 cat100 true intent100 totals100 db100
      (by decide) rfl (by simpa [intent100] using computeTotals_cat100) (by decide)
  · have h := C3_amended_amount_integrity.2.2 COUPON_RULES cat100 20250101 7 none
      intent100 totals100 rfl
    simpa [mkMerchantOrderId, totals100] using h

/-! ## C5 — merchantOrderId assignment -/

/--
C5 counterexample: the claim states that a repeated create-gateway-order
call reuses an already assigned `merchantOrderId`. In fact every call
mints `` `mo_${intentId}_${Date.now()}` `` and overwrites the stored one:
two successive calls at times 1 and 2 leave different ids.
-/
theorem C5_counterexample :
    ((createOrderP13 COUPON_RULES cat100 20250101 1 none intent100).2).merchantOrderId
        = some "mo_pi3_1"
    ∧ ((createOrderP13 COUPON_RULES cat100 20250101 2 none
          (createOrderP13 COUPON_RULES cat100 20250101 1 none intent100).2).2).merchantOrderId
        = some "mo_pi3_2"
    ∧ (some "mo_pi3_1" : Option String) ≠ some "mo_pi3_2" := by decide

/--
C5 amended: the check-status resolution step assigns `merchantOrderId` at
most once — it reuses an existing id unchanged and back-fills a fresh one
only when none is set — but the create-gateway-order handler assigns a
fresh timestamped id on every successful call, overwriting any previously
assigned value.
-/
theorem C5_amended_mo_assignment :
    (∀ (intent : IntentRec) (fresh m : String),
        intent.merchantOrderId = some m →
        checkStatusResolveMo intent fresh = (m, intent))
    ∧ (∀ (intent : IntentRec) (fresh : String),
        intent.merchantOrderId = none →
        checkStatusResolveMo intent fresh
          = (fresh, { intent with merchantOrderId := some fresh }))
    ∧ (∀ (rules : List CouponRule) (catalog : Catalog) (nowDate now : Int)
        (fc : Option String) (intent : IntentRec) (intentOut : IntentRec)
        (mo : String) (amt : Int),
        createOrderP13 rules catalog nowDate now fc intent = (.sent mo amt, intentOut) →
        mo = mkMerchantOrderId intent.intentId now
          ∧ intentOut.merchantOrderId = some (mkMerchantOrderId intent.intentId now)) := by
  refine ⟨?_, ?_, ?_⟩
  · intro intent fresh m h; simp [checkStatusResolveMo, h]
  · intro intent fresh h; simp [checkStatusResolveMo, h]
  · intro rules catalog nowDate now fc intent intentOut mo amt h
    cases ht : intent.totals with
    | some t =>
      rw [createOrderP13, ht] at h
      simp only [Prod.mk.injEq, P13CreateOut.sent.injEq] at h
      obtain ⟨⟨hmo, _⟩, hint⟩ := h
      subst hmo
      subst hint
      exact ⟨rfl, rfl⟩
    | none =>
      rw [createOrderP13, ht] at h
      cases hc : computeTotalsFromDb catalog intent.orderItems with
      | error e => rw [hc] at h; simp at h
      | ok db =>
        rw [hc] at h
        simp only [Prod.mk.injEq, P13CreateOut.sent.injEq] at h
        obtain ⟨⟨hmo, _⟩, hint⟩ := h
        subst hmo
        subst hint
        exact ⟨rfl, rfl⟩

/-- Witness for the amended C5: reuse of a set id, back-fill of a missing
id, and the overwriting assignment of the create-order handler. -/
theorem C5_amended_mo_assignment_witness :
    intentWithMo.merchantOrderId = some "mo_pi3_1"
    ∧ checkStatusResolveMo intentWithMo "fresh1" = ("mo_pi3_1", intentWithMo)
    ∧ intent100.merchantOrderId = none
    ∧ checkStatusResolveMo intent100 "fresh1"
        = ("fresh1", { intent100 with merchantOrderId := some "fresh1" })
    ∧ ("mo_pi3_7" = mkMerchantOrderId intent100.intentId 7
        ∧ intent100After7.merchantOrderId
            = some (mkMerchantOrderId intent100.intentId 7)) := by
  refine ⟨by decide, ?_, by decide, ?_, ?_⟩
  · exact C5_amended_mo_assignment.1 intentWithMo "fresh1" "mo_pi3_1" (by decide)
  · exact C5_amended_mo_assignment.2.1 intent100 "fresh1" (by decide)
  · exact C5_amended_mo_assignment.2.2 COUPON_RULES cat100 20250101 7 none intent100
      intent100After7 "mo_pi3_7" 19900 (by decide)

/-! ## C7 — shipping-address completeness gate -/

/--
C7: an initiate-intent request whose merged shipping address leaves any of
{address, city, state, postalCode, phone} empty (given that the earlier
item-shape and customer checks pass, the states in which the gate is
reached) is rejected with exactly the list of missing field names. The
right-hand side mentions neither the catalog nor the coupon clock, so no
totals computation is involved, and the result is not `created`, so no
intent is persisted.
-/
theorem C7_shipping_gate (rules : List CouponRule) (catalog : Catalog) (nowDate : Int)
    (freshId : String) (req : InitiateReq)
    (hv : validateOrderItemsShape req.orderItems = none)
    (hc : ¬ (req.customerInfo.email = "" ∨ req.customerInfo.firstName = ""))
    (hm : missingShippingFields
        (finalShippingAddress req.shippingAddress req.customerInfo) ≠ []) :
    initiateIntent rules catalog nowDate freshId req
      = .missingShipping
          (missingShippingFields (finalShippingAddress req.shippingAddress req.customerInfo)) := by
  simp [initiateIntent, hv, hc, hm]

/-- Witness for C7 at the concrete request (city missing). -/
theorem C7_shipping_gate_witness :
    validateOrderItemsShape c7Req.orderItems = none
    ∧ ¬ (c7Req.customerInfo.email = "" ∨ c7Req.customerInfo.firstName = "")
    ∧ missingShippingFields
        (finalShippingAddress c7Req.shippingAddress c7Req.customerInfo) = ["city"]
    ∧ initiateIntent COUPON_RULES cat100 20250101 "pi_w" c7Req
        = InitiateOut.missingShipping ["city"] := by
  refine ⟨by decide, by decide, by decide, ?_⟩
  have h := C7_shipping_gate COUPON_RULES cat100 20250101 "pi_w" c7Req
    (by decide) (by decide) (by decide)
  rw [h]
  have hm : missingShippingFields
      (finalShippingAddress c7Req.shippingAddress c7Req.customerInfo) = ["city"] := by decide
  rw [hm]

/-! ## C8 — coupon discount correctness -/

/--
C8: for every coupon code resolving to a rule of the static table and any
nonnegative subtotal, the applied discount never exceeds the subtotal;
it is zero when the rule is inactive, expired (expiry before the clock) or
the subtotal is below the rule minimum; and when the rule applies, the
discount is exactly the rule's flat value or `Math.floor(subtotal*percent/100)`.
-/
theorem C8_coupon_discount (code : String) (rule : CouponRule) (subtotal : ℚ) (now : Int)
    (hfind : couponLookup COUPON_RULES code = some rule) (hs : 0 ≤ subtotal) :
    couponDiscount COUPON_RULES (some code) subtotal now ≤ subtotal
    ∧ (rule.isActive = false → couponDiscount COUPON_RULES (some code) subtotal now = 0)
    ∧ (rule.expiryDate < now → couponDiscount COUPON_RULES (some code) subtotal now = 0)
    ∧ (subtotal < rule.minOrderValue →
        couponDiscount COUPON_RULES (some code) subtotal now = 0)
    ∧ (rule.isActive = true → now ≤ rule.expiryDate → rule.minOrderValue ≤ subtotal →
        couponDiscount COUPON_RULES (some code) subtotal now
          = rawDiscount rule subtotal) := by
  have hd : couponDiscount COUPON_RULES (some code) subtotal now
      = min (gatedDiscount rule subtotal now) subtotal := by
    simp [couponDiscount, hfind]
  refine ⟨?_, ?_, ?_, ?_, ?_⟩
  · rw [hd]; exact min_le_right _ _
  · intro h
    rw [hd]
    simp only [gatedDiscount, h]
    simp [min_eq_left hs]
  · intro h
    rw [hd]
    simp only [gatedDiscount, not_le.mpr h, false_and, if_false, ite_self]
    simp [min_eq_left hs]
  · intro h
    rw [hd]
    simp only [gatedDiscount, not_le.mpr h, and_false, if_false, ite_self]
    simp [min_eq_left hs]
  · intro ha hexp hmin
    rw [hd]
    simp only [gatedDiscount, ha, if_true, hexp, hmin, and_self]
    have hraw : rawDiscount rule subtotal ≤ subtotal := by
      have hmem : rule ∈ COUPON_RULES := List.mem_of_find?_eq_some hfind
      simp only [COUPON_RULES, List.mem_cons, List.not_mem_nil, or_false] at hmem
      rcases hmem with h | h | h <;> subst h <;> simp only [rawDiscount] at *
      · linarith
      · calc ((⌊subtotal * 5 / 100⌋ : Int) : ℚ) ≤ subtotal * 5 / 100 := Int.floor_le _
          _ ≤ subtotal := by linarith
      · linarith
    simp [min_eq_left hraw]

/-- Witness for C8 at FLAT100 with subtotal 600. -/
theorem C8_coupon_discount_witness :
    couponLookup COUPON_RULES "FLAT100" = some flat100Rule
    ∧ (0 : ℚ) ≤ 600
    ∧ (couponDiscount COUPON_RULES (some "FLAT100") 600 20250101 ≤ 600
      ∧ (flat100Rule.isActive = false →
          couponDiscount COUPON_RULES (some "FLAT100") 600 20250101 = 0)
      ∧ (flat100Rule.expiryDate < 20250101 →
          couponDiscount COUPON_RULES (some "FLAT100") 600 20250101 = 0)
      ∧ ((600 : ℚ) < flat100Rule.minOrderValue →
          couponDiscount COUPON_RULES (some "FLAT100") 600 20250101 = 0)
      ∧ (flat100Rule.isActive = true → 20250101 ≤ flat100Rule.expiryDate →
          flat100Rule.minOrderValue ≤ 600 →
          couponDiscount COUPON_RULES (some "FLAT100") 600 20250101
            = rawDiscount flat100Rule 600)) :=
  ⟨by decide, by norm_num,
   C8_coupon_discount "FLAT100" flat100Rule 600 20250101 (by decide) (by norm_num)⟩

/-! ## C9 — shipping-fee threshold -/

/--
C9 counterexample: the claim states that a subtotal exactly at the
threshold ships free. The code charges the flat fee at the threshold
(`subtotal > 499 ? 0 : 99`): the computed snapshot for a 499-subtotal cart
carries shipping fee 99, not 0.
-/
theorem C9_counterexample :
    ¬ (∀ (catalog : Catalog) (items : List OrderItem) (t : DbTotals),
        computeTotalsFromDb catalog items = .ok t →
        499 ≤ t.subtotal → t.shippingFee = 0) := by
  intro hclaim
  have h := hclaim cat499 [item1] db499 computeTotals_cat499 (by norm_num [db499])
  norm_num [db499] at h

/--
C9 amended: in every computed totals snapshot the shipping fee is the flat
fee 99 when the subtotal is at or below 499 and zero when the subtotal is
strictly above 499; in particular a subtotal exactly at the threshold pays
the fee.
-/
theorem C9_amended_shipping_fee (catalog : Catalog) (items : List OrderItem) (t : DbTotals)
    (h : computeTotalsFromDb catalog items = .ok t) :
    (t.subtotal ≤ 499 → t.shippingFee = 99) ∧ (499 < t.subtotal → t.shippingFee = 0) := by
  unfold computeTotalsFromDb at h
  cases hs : computeSubtotal catalog items with
  | error e => rw [hs] at h; simp [Except.map] at h
  | ok s =>
    rw [hs] at h
    simp only [Except.map, Except.ok.injEq] at h
    subst h
    have hsub : (mkDbTotals s).subtotal = s := rfl
    have hfee : (mkDbTotals s).shippingFee = shippingFeeOf s := rfl
    rw [hsub, hfee]
    constructor
    · intro hle
      rw [shippingFeeOf, if_neg (not_lt.mpr hle)]
    · intro hgt
      rw [shippingFeeOf, if_pos hgt]

/-- Witness for the amended C9 over the threshold catalog. -/
theorem C9_amended_shipping_fee_witness :
    computeTotalsFromDb cat499 [item1] = .ok db499
    ∧ (db499.subtotal ≤ 499 → db499.shippingFee = 99)
    ∧ (499 < db499.subtotal → db499.shippingFee = 0) := by
  refine ⟨computeTotals_cat499, ?_⟩
  exact C9_amended_shipping_fee cat499 [item1] db499 computeTotals_cat499

/-! ## C10 — case-insensitive coupon lookup -/

/--
C10: the coupon-application step is case-insensitive — two codes with the
same uppercasing (in particular any case-variant of a code) yield the same
discount for every rule table, subtotal and clock, because both sides of
the rule-table match are uppercased before comparison.
-/
theorem C10_coupon_case_insensitive (rules : List CouponRule) (c₁ c₂ : String)
    (subtotal : ℚ) (now : Int) (h : upper c₁ = upper c₂) :
    couponDiscount rules (some c₁) subtotal now
      = couponDiscount rules (some c₂) subtotal now := by
  simp [couponDiscount, couponLookup, h]

/-- Witness for C10: lowercase and uppercase FLAT100 get the same
discount. -/
theorem C10_coupon_case_insensitive_witness :
    upper "flat100" = upper "FLAT100"
    ∧ couponDiscount COUPON_RULES (some "flat100") 600 20250101
        = couponDiscount COUPON_RULES (some "FLAT100") 600 20250101 :=
  ⟨by decide,
   C10_coupon_case_insensitive COUPON_RULES "flat100" "FLAT100" 600 20250101 (by decide)⟩

end RnR
